import Mathlib

/-!
Shallow embedding of the document-processing pipeline of the `cai-orc`
repository (a Next.js + MongoDB document-management application), together
with proofs about the specification's claims.

The embedding covers:
* the `Document` Mongoose model's instance methods `updateStatus`,
  `updateOcrResult` and `updateParsedData` (src/models/Document.ts);
* `GlmOcrService.calculateConfidence` (src/lib/services/glmOcr.ts);
* `GlmParserService.parseByType` (src/lib/services/glmParser.ts);
* the pipeline `processDocument` of src/app/api/documents/process/route.ts,
  with remote calls and audit-log writes modelled by an outcome oracle;
* the upload `POST` handler of src/app/api/documents/upload/route.ts
  (file-type / file-size validation before any side effect);
* the document-update `PUT` handler of src/app/api/documents/[id]/route.ts.

JavaScript numbers appearing in `calculateConfidence` are modelled as
rationals; JS truthiness of strings is `≠ ""`, of numbers `≠ 0`, of
optional objects `Option.isSome`.
-/

namespace CaiOrc

/-- The `DocumentType` enumeration of src/types/document.ts (also the
Mongoose enum on `documentType`). -/
inductive DocumentType where
  | invoice
  | certificate
  | resume
  | handwritten
  | financial_report
  | other
deriving DecidableEq, Repr

/-- The string literal backing each `DocumentType` value. -/
def DocumentType.key : DocumentType → String
  | .invoice => "invoice"
  | .certificate => "certificate"
  | .resume => "resume"
  | .handwritten => "handwritten"
  | .financial_report => "financial_report"
  | .other => "other"

/-- Inverse of `DocumentType.key`: the Mongoose enum validation on the
`documentType` path (returns `none` for a string outside the enum). -/
def parseDocumentType (s : String) : Option DocumentType :=
  if s = "invoice" then some .invoice
  else if s = "certificate" then some .certificate
  else if s = "resume" then some .resume
  else if s = "handwritten" then some .handwritten
  else if s = "financial_report" then some .financial_report
  else if s = "other" then some .other
  else none

/-- The `status` enumeration of the Document schema. -/
inductive DocStatus where
  | processing
  | completed
  | failed
deriving DecidableEq, Repr

/-- A layout region returned by the OCR collaborator
(`LayoutDetail` of src/types/document.ts). -/
structure LayoutDetail where
  index : Nat
  label : String
  bbox_2d : List Int
  content : String
  height : Nat
  width : Nat
  page : Option Nat := none
deriving DecidableEq, Repr

/-- Structured extraction output. The pipeline treats it as an opaque JSON
value; we keep it abstract as its serialised text. -/
abbrev Json := String

/-- `parsedData` as the pipeline writes it: a JS object literal
`{ [detectedType]: result }`, i.e. an association list from type keys to a
possibly-`null` extraction result. -/
abbrev ParsedData := List (DocumentType × Option Json)

/-- `pd` has an own-property for the key `t` (JS `t in pd`). -/
def ParsedData.hasKey (pd : ParsedData) (t : DocumentType) : Bool :=
  (pd.map Prod.fst).contains t

/-- The `error` subdocument (`ErrorSchema` of src/models/Document.ts). -/
structure ErrorInfo where
  message : String
  code : Option String := none
  stage : Option String := none
deriving DecidableEq, Repr

/-- The argument object passed to `updateStatus` as its `error` parameter. -/
structure ErrorArg where
  message : String
  code : Option String := none
  stage : Option String := none
deriving DecidableEq, Repr

/-- The `metadata` subdocument. Timestamps are abstract instants (`Nat`). -/
structure Metadata where
  fileSize : Option Nat := none
  pageCount : Option Nat := none
  confidence : Option ℚ := none
  ocrProcessedAt : Option Nat := none
  aiParsedAt : Option Nat := none
deriving DecidableEq, Repr

/-- The `ocrResult` subdocument, and equally the object literal
`{ mdResults, layoutDetails, numPages }` the pipeline passes to
`updateOcrResult`. -/
structure OcrPayload where
  mdResults : String
  layoutDetails : List LayoutDetail
  numPages : Nat
deriving DecidableEq, Repr

/-- One persisted `Document` record (src/models/Document.ts). -/
structure DocRecord where
  id : String
  fileName : String
  fileUrl : String
  fileType : String
  documentType : DocumentType
  status : DocStatus
  ocrResult : Option OcrPayload := none
  parsedData : Option ParsedData := none
  metadata : Metadata := {}
  error : Option ErrorInfo := none
deriving DecidableEq, Repr

/-- `DocumentSchema.methods.updateStatus` (src/models/Document.ts:303):
sets `status`; when an error argument is given and the new status is
`"failed"`, stores `{ message: error.message || "Unknown error",
code: error.code, stage: error.stage }`; otherwise clears `error`. -/
def updateStatus (d : DocRecord) (status : DocStatus) (error : Option ErrorArg) : DocRecord :=
  let d := { d with status := status }
  match error with
  | some e =>
      if status = .failed then
        { d with error := some { message := if e.message = "" then "Unknown error" else e.message,
                                 code := e.code, stage := e.stage } }
      else
        { d with error := none }
  | none => { d with error := none }

/-- `DocumentSchema.methods.updateOcrResult` (src/models/Document.ts:318):
stores the OCR payload, stamps `metadata.ocrProcessedAt`, and copies
`numPages` into `metadata.pageCount` when it is truthy (non-zero). -/
def updateOcrResult (d : DocRecord) (ocrResult : OcrPayload) (now : Nat) : DocRecord :=
  { d with ocrResult := some ocrResult,
           metadata := { d.metadata with
                         ocrProcessedAt := some now,
                         pageCount := if ocrResult.numPages ≠ 0
                                      then some ocrResult.numPages
                                      else d.metadata.pageCount } }

/-- The fixed key paths of `ParsedDataSchema` (src/models/Document.ts:130):
`invoice`, `certificate`, `resume`, `handwritten` and `financialReport`.
Note the camelCase `financialReport` — it differs from the enum string
`financial_report` the pipeline uses as a key — and the absence of any
`other` path. -/
def parsedDataSchemaKeys : List String :=
  ["invoice", "certificate", "resume", "handwritten", "financialReport"]

/-- Mongoose strict-mode casting of a value assigned to the `parsedData`
path: on save, entries whose key is not a `ParsedDataSchema` path are
silently stripped.  Since the pipeline keys entries by the enum strings,
`financial_report` (schema path: `financialReport`) and `other` (no
schema path) never survive the cast. -/
def castParsedData (pd : ParsedData) : ParsedData :=
  pd.filter (fun e => parsedDataSchemaKeys.contains e.1.key)

/-- Whether a `DocumentType`'s enum string is itself a `ParsedDataSchema`
path, so that a pipeline-written `parsedData` entry for it survives the
schema cast: true for `invoice`, `certificate`, `resume`, `handwritten`;
false for `financial_report` and `other`. -/
def schemaKeyedType (t : DocumentType) : Bool :=
  parsedDataSchemaKeys.contains t.key

/-- `DocumentSchema.methods.updateParsedData` (src/models/Document.ts:328):
stores the parsed data (subject to the `ParsedDataSchema` strict-mode cast
applied when the assignment is saved), stamps `metadata.aiParsedAt`,
assigns `documentType` when one is given (a `DocumentType` string is
always truthy), and sets `status` to `"completed"`. It does not touch
`error`. -/
def updateParsedData (d : DocRecord) (parsedData : ParsedData)
    (documentType : Option DocumentType) (now : Nat) : DocRecord :=
  let d := { d with parsedData := some (castParsedData parsedData),
                    metadata := { d.metadata with aiParsedAt := some now } }
  let d := match documentType with
           | some t => { d with documentType := t }
           | none => d
  { d with status := .completed }

/-- `reduce((sum, item) => sum + item.content.length, 0)` over a flat item
list (src/lib/services/glmOcr.ts:200). -/
def totalContentLength (items : List LayoutDetail) : Nat :=
  items.foldl (fun sum item => sum + item.content.length) 0

/-- `GlmOcrService.calculateConfidence` (src/lib/services/glmOcr.ts:194):
flattens the per-page layout details, returns 0 when there are no items,
and otherwise `Math.min(100, (totalContentLength / 10) * 2)`. -/
def calculateConfidence (layoutDetails : List (List LayoutDetail)) : ℚ :=
  let allItems := layoutDetails.flatten
  if allItems.length = 0 then 0
  else min 100 ((totalContentLength allItems : ℚ) / 10 * 2)

/-- Outcomes of the extraction chat calls: for each known document type,
what the corresponding `parseInvoice` / `parseCertificate` / … call (the
chat request followed by `parseJsonResponse`) would produce if made.
`Except.error` is a thrown exception carrying its message. -/
structure ChatEnv where
  outcome : DocumentType → Except String Json

/-- `GlmParserService.parseByType` (src/lib/services/glmParser.ts):
dispatches on the document type; each of the five known types makes one
remote extraction call; the `default` branch (reached for `"other"`, the
only `DocumentType` value outside the five known cases) returns `null`
without any call. The second component counts remote extraction calls. -/
def parseByType (env : ChatEnv) (ocrResult : String) (documentType : DocumentType) :
    Except String (Option Json) × Nat :=
  match documentType with
  | .invoice => ((env.outcome .invoice).map some, 1)
  | .certificate => ((env.outcome .certificate).map some, 1)
  | .resume => ((env.outcome .resume).map some, 1)
  | .handwritten => ((env.outcome .handwritten).map some, 1)
  | .financial_report => ((env.outcome .financial_report).map some, 1)
  | .other => (Except.ok none, 0)

/-- The result object of `ocrFromUrl` (src/lib/services/glmOcr.ts):
`{ mdResults, layoutDetails, numPages, confidence }`. -/
structure OcrResponse where
  mdResults : String
  layoutDetails : List LayoutDetail
  numPages : Nat
  confidence : ℚ
deriving DecidableEq, Repr

/-- The object literal the pipeline passes to `updateOcrResult`
(`{ mdResults: ocrResult.mdResults, layoutDetails: ocrResult.layoutDetails,
numPages: ocrResult.numPages }`). -/
def OcrResponse.payload (r : OcrResponse) : OcrPayload :=
  { mdResults := r.mdResults, layoutDetails := r.layoutDetails, numPages := r.numPages }

/-- The detail objects the pipeline passes to `AuditLog.log`. -/
inductive AuditDetail where
  | started
  | ocrCompleted (numPages : Nat)
  | ocrFailed (error : String)
  | aiParseCompleted (documentType : DocumentType)
  | aiParseFailed (error : String)
  | upload (fileSize : Nat) (fileType : String)
  | update
deriving DecidableEq, Repr

/-- One persisted audit entry (`AuditLogSchema.statics.log`,
src/models/AuditLog.ts:107 — a plain `create` of the given fields). -/
structure AuditEntry where
  documentId : String
  fileName : String
  action : String
  details : AuditDetail
deriving DecidableEq, Repr

/-- A remote collaborator call made by the pipeline. -/
inductive RemoteCall where
  | ocr
  | detect
  | ext (documentType : DocumentType)
deriving DecidableEq, Repr

/-- Outcome oracle for one `processDocument` invocation: the outcome each
collaborator call and each audit-log write would have if performed.  Audit
writes are numbered in the order they are attempted; `audit n = false`
means the n-th attempted `AuditLog.log` call rejects, with error message
`auditMsg n`. -/
structure Oracle where
  ocr : Except String OcrResponse
  detect : Except String DocumentType
  ext : DocumentType → Except String Json
  audit : Nat → Bool
  auditMsg : Nat → String

/-- The observable outcome of one `processDocument` invocation: the final
record, the audit entries written, every saved version of the record (the
initial record first), the remote calls made, and the returned
`{ success, message?, error? }` object. -/
structure ProcOutcome where
  doc : DocRecord
  audits : List AuditEntry
  trace : List DocRecord
  calls : List RemoteCall
  success : Bool
  message : Option String := none
  errMsg : Option String := none
deriving DecidableEq, Repr

/-- The audit entry written by `AuditLog.log(documentId, document.fileName,
"reparse", detail)` in the pipeline. -/
def reparseAudit (d : DocRecord) (detail : AuditDetail) : AuditEntry :=
  { documentId := d.id, fileName := d.fileName, action := "reparse", details := detail }

/-- The tail of `processDocument` shared by every path that throws inside
the step-3 `try` block (classification error, extraction error, or a
rejected `ai_parse_completed` audit write): `updateStatus("failed",
{ message, stage: "ai_parse" })`, then the `ai_parse_failed` audit write
(audit index `n`; if it also rejects, the outer catch returns the audit
error), then `return { success: false, error: "AI 解析失败: " + msg }`. -/
def aiParseCatch (o : Oracle) (d : DocRecord) (audits : List AuditEntry)
    (trace : List DocRecord) (calls : List RemoteCall) (msg : String) (n : Nat) : ProcOutcome :=
  let d2 := updateStatus d .failed (some { message := msg, stage := some "ai_parse" })
  if o.audit n then
    { doc := d2, audits := audits ++ [reparseAudit d (.aiParseFailed msg)],
      trace := trace ++ [d2], calls := calls, success := false,
      errMsg := some ("AI 解析失败: " ++ msg) }
  else
    { doc := d2, audits := audits, trace := trace ++ [d2], calls := calls,
      success := false, errMsg := some (o.auditMsg n) }

/-- Step 3 of `processDocument` with the resolved type `t`: `parseByType`
(one extraction call for a known type, `null` and no call for `other`),
`updateParsedData({ [detectedType]: result }, detectedType)`, the
`ai_parse_completed` audit write (audit index `n`; if it rejects, control
transfers to the `ai_parse` catch with the audit error's message), and the
success return. -/
def extractionStep (o : Oracle) (d : DocRecord) (od : OcrResponse)
    (audits : List AuditEntry) (trace : List DocRecord) (calls : List RemoteCall)
    (t : DocumentType) (tParse : Nat) (n : Nat) : ProcOutcome :=
  match parseByType { outcome := o.ext } od.mdResults t with
  | (Except.error msg, k) =>
      aiParseCatch o d audits trace (calls ++ (List.replicate k (RemoteCall.ext t))) msg n
  | (Except.ok result, k) =>
      let calls := calls ++ (List.replicate k (RemoteCall.ext t))
      let d2 := updateParsedData d [(t, result)] (some t) tParse
      if o.audit n then
        { doc := d2, audits := audits ++ [reparseAudit d (.aiParseCompleted t)],
          trace := trace ++ [d2], calls := calls, success := true,
          message := some ("处理成功，识别为: " ++ t.key) }
      else
        aiParseCatch o d2 audits (trace ++ [d2]) calls (o.auditMsg n) (n + 1)

/-- Step 2 of `processDocument`: `detectedType` starts as the record's
`documentType`; when that is `"other"`, the classification collaborator is
called and its result becomes `detectedType` (a thrown classification
error is handled by the `ai_parse` catch); then step 3 runs with the
resolved type. -/
def typeResolutionStep (o : Oracle) (d : DocRecord) (od : OcrResponse)
    (audits : List AuditEntry) (trace : List DocRecord) (tParse : Nat) : ProcOutcome :=
  if d.documentType = .other then
    match o.detect with
    | Except.error msg =>
        aiParseCatch o d audits trace [RemoteCall.ocr, RemoteCall.detect] msg 2
    | Except.ok t =>
        extractionStep o d od audits trace [RemoteCall.ocr, RemoteCall.detect] t tParse 2
  else
    extractionStep o d od audits trace [RemoteCall.ocr] d.documentType tParse 2

/-- `processDocument(documentId)` (src/app/api/documents/process/route.ts),
for a found record `d0`.  Audit writes in attempt order: 0 = `started`,
1 = `ocr_completed` / `ocr_failed`, then step-2/3 writes from index 2.
`tOcr` and `tParse` are the instants `new Date()` yields inside
`updateOcrResult` and `updateParsedData`. -/
def processDocument (o : Oracle) (d0 : DocRecord) (tOcr tParse : Nat) : ProcOutcome :=
  -- `AuditLog.log(..., { stage: "started" })`; a rejection reaches the
  -- outer catch before any document update.
  if o.audit 0 = false then
    { doc := d0, audits := [], trace := [d0], calls := [], success := false,
      errMsg := some (o.auditMsg 0) }
  else
  let audits0 := [reparseAudit d0 .started]
  match o.ocr with
  | Except.error msg =>
      -- the OCR catch: mark failed at stage "ocr", write `ocr_failed`.
      let d1 := updateStatus d0 .failed (some { message := msg, stage := some "ocr" })
      if o.audit 1 then
        { doc := d1, audits := audits0 ++ [reparseAudit d0 (.ocrFailed msg)],
          trace := [d0, d1], calls := [RemoteCall.ocr], success := false,
          errMsg := some ("OCR 失败: " ++ msg) }
      else
        { doc := d1, audits := audits0, trace := [d0, d1], calls := [RemoteCall.ocr],
          success := false, errMsg := some (o.auditMsg 1) }
  | Except.ok od =>
      let d1 := updateOcrResult d0 od.payload tOcr
      if o.audit 1 = false then
        -- the `ocr_completed` audit write rejects inside the OCR `try`:
        -- the OCR catch marks the record failed at stage "ocr" with the
        -- audit error's message, then writes `ocr_failed` (audit index 2).
        let d2 := updateStatus d1 .failed (some { message := o.auditMsg 1, stage := some "ocr" })
        if o.audit 2 then
          { doc := d2, audits := audits0 ++ [reparseAudit d0 (.ocrFailed (o.auditMsg 1))],
            trace := [d0, d1, d2], calls := [RemoteCall.ocr], success := false,
            errMsg := some ("OCR 失败: " ++ o.auditMsg 1) }
        else
          { doc := d2, audits := audits0, trace := [d0, d1, d2],
            calls := [RemoteCall.ocr], success := false, errMsg := some (o.auditMsg 2) }
      else
        let audits1 := audits0 ++ [reparseAudit d0 (.ocrCompleted od.numPages)]
        typeResolutionStep o d1 od audits1 [d0, d1] tParse

/-- The file part of an upload request (`formData.get("file")`). -/
structure UploadFile where
  name : String
  mime : String
  size : Nat
deriving DecidableEq, Repr

/-- The fields of the upload form relevant to the handler. -/
structure UploadReq where
  file : Option UploadFile
  documentType : Option String
deriving DecidableEq, Repr

/-- The environment configuration consumed by the upload handler
(src/lib/env.ts: `maxFileSize`, `allowedFileTypes`). -/
structure UploadEnv where
  allowedFileTypes : List String
  maxFileSize : Nat

/-- `validateFileType` of src/app/api/documents/upload/route.ts:
`env.allowedFileTypes.includes(mimeType)`. -/
def validateFileType (env : UploadEnv) (mimeType : String) : Bool :=
  env.allowedFileTypes.contains mimeType

/-- `validateFileSize` of src/app/api/documents/upload/route.ts:
`size <= env.maxFileSize`. -/
def validateFileSize (env : UploadEnv) (size : Nat) : Bool :=
  size ≤ env.maxFileSize

/-- JS `a || b` for an optional string (`null` and `""` are falsy). -/
def jsOrString (a : Option String) (b : String) : String :=
  match a with
  | some s => if s = "" then b else s
  | none => b

/-- The observable outcome of one upload `POST` request: the HTTP status
of the response, the file stored by `saveFile` (if any), the document
record created (if any), and the audit entries written. -/
structure UploadOutcome where
  status : Nat
  savedFile : Option UploadFile
  createdDoc : Option DocRecord
  audits : List AuditEntry
deriving DecidableEq, Repr

/-- The upload `POST` handler (src/app/api/documents/upload/route.ts),
after a successful permission check: missing file → 400; disallowed MIME
type → 400; oversize file → 400 — each before `saveFile` and
`Document.create`.  Otherwise the file is saved, the record is created
with `status: "processing"` and `documentType: documentType || "other"`
(a string outside the Mongoose enum makes `Document.create` reject, which
the catch turns into a 500 — with the file already saved), the `upload`
audit entry is written, and processing is kicked off without being
awaited (the handler returns 201 immediately).  `savedUrl` is the URL
`saveFile` mints for the stored file. -/
def uploadPOST (env : UploadEnv) (req : UploadReq) (newId savedUrl : String) : UploadOutcome :=
  match req.file with
  | none => { status := 400, savedFile := none, createdDoc := none, audits := [] }
  | some f =>
      if validateFileType env f.mime = false then
        { status := 400, savedFile := none, createdDoc := none, audits := [] }
      else if validateFileSize env f.size = false then
        { status := 400, savedFile := none, createdDoc := none, audits := [] }
      else
        match parseDocumentType (jsOrString req.documentType "other") with
        | none => { status := 500, savedFile := some f, createdDoc := none, audits := [] }
        | some t =>
            let doc : DocRecord :=
              { id := newId, fileName := f.name, fileUrl := savedUrl, fileType := f.mime,
                documentType := t, status := .processing,
                metadata := { fileSize := some f.size } }
            { status := 201, savedFile := some f, createdDoc := some doc,
              audits := [{ documentId := newId, fileName := f.name, action := "upload",
                           details := AuditDetail.upload f.size f.mime }] }

/-- The body of a document-update `PUT` request: the two keys of
`allowedUpdates` (src/app/api/documents/[id]/route.ts), each present or
absent. -/
structure PutBody where
  documentType : Option DocumentType := none
  parsedData : Option ParsedData := none
deriving DecidableEq, Repr

/-- The `PUT /api/documents/[id]` handler's effect on a found record:
copies the present `allowedUpdates` keys into the update; when
`parsedData` is among them, additionally sets `status: "completed"` and
re-stamps `metadata.aiParsedAt`; applies the update with `$set` (the
`parsedData` value again passing through the `ParsedDataSchema`
strict-mode cast).  It never touches `error`. -/
def putDocument (d : DocRecord) (body : PutBody) (now : Nat) : DocRecord :=
  let d := match body.documentType with
           | some t => { d with documentType := t }
           | none => d
  match body.parsedData with
  | some pd =>
      { d with parsedData := some (castParsedData pd), status := .completed,
               metadata := { d.metadata with aiParsedAt := some now } }
  | none => d

/-- The terminal status the extraction step produces for resolved type `t`
when audit writes succeed: `"other"` parses to `null` and completes; a
known type completes iff its extraction call succeeds. -/
def expectedExt (o : Oracle) (t : DocumentType) : DocStatus :=
  if t = .other then .completed
  else match o.ext t with
       | Except.ok _ => .completed
       | Except.error _ => .failed

/-- The terminal status produced once the OCR step has succeeded, as a
function of the record's `documentType` at that point: classification is
consulted exactly when the type is `"other"`. -/
def resolvedStatus (o : Oracle) (t : DocumentType) : DocStatus :=
  if t = .other then
    match o.detect with
    | Except.error _ => .failed
    | Except.ok t2 => expectedExt o t2
  else expectedExt o t

/-- The terminal status of a `processDocument` invocation whose audit
writes all succeed, as a function of the collaborator-call outcomes and
the record's `documentType` alone. -/
def expectedFinal (o : Oracle) (t : DocumentType) : DocStatus :=
  match o.ocr with
  | Except.error _ => .failed
  | Except.ok _ => resolvedStatus o t

/-- The claim-C2 invariant as the program can maintain it: a completed
record's `parsedData` has an own-property for the record's current
`documentType`, provided that type's enum string is a `ParsedDataSchema`
path (the schema cast strips the pipeline's entry for `financial_report`
and `other`, so no invariant can hold for those types). -/
def schemaParsedKeyInv (d : DocRecord) : Prop :=
  d.status = .completed → schemaKeyedType d.documentType = true →
    ∃ pd, d.parsedData = some pd ∧ pd.hasKey d.documentType = true

/-! ### Concrete fixtures used by witnesses and counterexamples -/

/-- A freshly uploaded invoice record, as `Document.create` makes it. -/
def freshInvoiceDoc : DocRecord :=
  { id := "doc1", fileName := "inv.pdf", fileUrl := "/uploads/inv.pdf",
    fileType := "application/pdf", documentType := .invoice, status := .processing,
    metadata := { fileSize := some 2048 } }

/-- A record whose previous processing failed at the OCR stage. -/
def failedInvoiceDoc : DocRecord :=
  { freshInvoiceDoc with
    status := .failed,
    error := some { message := "OCR timeout", stage := some "ocr" } }

/-- A record completed with invoice data. -/
def completedInvoiceDoc : DocRecord :=
  { freshInvoiceDoc with
    status := .completed,
    parsedData := some [(.invoice, some "invoice-json")] }

/-- A freshly uploaded record with no assigned type. -/
def otherTypeDoc : DocRecord :=
  { freshInvoiceDoc with documentType := .other }

/-- A freshly uploaded record typed as a financial report. -/
def financialReportDoc : DocRecord :=
  { freshInvoiceDoc with documentType := .financial_report }

/-- A successful OCR response used by the concrete scenarios. -/
def sampleOcrResponse : OcrResponse :=
  { mdResults := "Invoice No: 123, Amount: 500",
    layoutDetails := [], numPages := 2, confidence := 80 }

/-- An oracle on which every collaborator call and audit write succeeds. -/
def allOkOracle : Oracle :=
  { ocr := .ok sampleOcrResponse,
    detect := .ok .invoice,
    ext := fun _ => .ok "extraction-json",
    audit := fun _ => true,
    auditMsg := fun _ => "" }

/-- Like `allOkOracle`, but the OCR call fails with message `"timeout"`. -/
def ocrFailOracle : Oracle :=
  { allOkOracle with ocr := .error "timeout" }

/-- Like `allOkOracle`, but the OCR call fails with an empty message. -/
def ocrFailEmptyMsgOracle : Oracle :=
  { allOkOracle with ocr := .error "" }

/-- Like `allOkOracle`, but the second audit write (the `ocr_completed`
entry) rejects with message `"audit store down"`. -/
def audit1FailOracle : Oracle :=
  { allOkOracle with
    audit := fun n => decide (n ≠ 1),
    auditMsg := fun _ => "audit store down" }

/-- Like `allOkOracle`, but every extraction call fails with `"bad json"`
(classification still returns `invoice`). -/
def extFailOracle : Oracle :=
  { allOkOracle with ext := fun _ => .error "bad json" }

/-- A layout item with ten characters of content. -/
def sampleItem : LayoutDetail :=
  { index := 0, label := "text", bbox_2d := [0, 0, 10, 10],
    content := "abcdefghij", height := 10, width := 10 }

/-- The default upload configuration of src/lib/env.ts. -/
def sampleEnv : UploadEnv :=
  { allowedFileTypes := ["image/png", "image/jpeg", "image/jpg", "application/pdf"],
    maxFileSize := 10485760 }

/-- An upload whose MIME type is outside the allowed set. -/
def badGifFile : UploadFile :=
  { name := "x.gif", mime := "image/gif", size := 5 }

/-- The upload request carrying `badGifFile`. -/
def badUploadReq : UploadReq :=
  { file := some badGifFile, documentType := none }

/-! ### Basic facts about the record-update methods -/

/-- `updateStatus` always stores the requested status. -/
@[simp] theorem updateStatus_status (d : DocRecord) (s : DocStatus) (e : Option ErrorArg) :
    (updateStatus d s e).status = s := by
  unfold updateStatus
  rcases e with _ | e
  · rfl
  · by_cases h : s = DocStatus.failed <;> simp [h]

@[simp] theorem updateStatus_parsedData (d : DocRecord) (s : DocStatus) (e : Option ErrorArg) :
    (updateStatus d s e).parsedData = d.parsedData := by
  unfold updateStatus
  rcases e with _ | e
  · rfl
  · by_cases h : s = DocStatus.failed <;> simp [h]

@[simp] theorem updateStatus_ocrResult (d : DocRecord) (s : DocStatus) (e : Option ErrorArg) :
    (updateStatus d s e).ocrResult = d.ocrResult := by
  unfold updateStatus
  rcases e with _ | e
  · rfl
  · by_cases h : s = DocStatus.failed <;> simp [h]

@[simp] theorem updateStatus_documentType (d : DocRecord) (s : DocStatus) (e : Option ErrorArg) :
    (updateStatus d s e).documentType = d.documentType := by
  unfold updateStatus
  rcases e with _ | e
  · rfl
  · by_cases h : s = DocStatus.failed <;> simp [h]

/-- `updateStatus` to `"failed"` with an error argument stores the error,
defaulting an empty (falsy) message to `"Unknown error"`. -/
theorem updateStatus_failed_error (d : DocRecord) (e : ErrorArg) :
    (updateStatus d .failed (some e)).error =
      some { message := if e.message = "" then "Unknown error" else e.message,
             code := e.code, stage := e.stage } := by
  simp [updateStatus]

@[simp] theorem updateOcrResult_status (d : DocRecord) (p : OcrPayload) (n : Nat) :
    (updateOcrResult d p n).status = d.status := rfl

@[simp] theorem updateOcrResult_error (d : DocRecord) (p : OcrPayload) (n : Nat) :
    (updateOcrResult d p n).error = d.error := rfl

@[simp] theorem updateOcrResult_parsedData (d : DocRecord) (p : OcrPayload) (n : Nat) :
    (updateOcrResult d p n).parsedData = d.parsedData := rfl

@[simp] theorem updateOcrResult_documentType (d : DocRecord) (p : OcrPayload) (n : Nat) :
    (updateOcrResult d p n).documentType = d.documentType := rfl

@[simp] theorem updateParsedData_status (d : DocRecord) (pd : ParsedData)
    (t : Option DocumentType) (n : Nat) :
    (updateParsedData d pd t n).status = .completed := by
  unfold updateParsedData
  rcases t with _ | t <;> rfl

@[simp] theorem updateParsedData_parsedData (d : DocRecord) (pd : ParsedData)
    (t : Option DocumentType) (n : Nat) :
    (updateParsedData d pd t n).parsedData = some (castParsedData pd) := by
  unfold updateParsedData
  rcases t with _ | t <;> rfl

/-- The schema cast keeps a pipeline-written singleton entry exactly when
the resolved type's enum string is a schema path. -/
theorem castParsedData_singleton (t : DocumentType) (r : Option Json) :
    castParsedData [(t, r)] = if schemaKeyedType t = true then [(t, r)] else [] := by
  cases t <;> rfl

@[simp] theorem updateParsedData_some_documentType (d : DocRecord) (pd : ParsedData)
    (t : DocumentType) (n : Nat) :
    (updateParsedData d pd (some t) n).documentType = t := rfl

@[simp] theorem updateParsedData_error (d : DocRecord) (pd : ParsedData)
    (t : Option DocumentType) (n : Nat) :
    (updateParsedData d pd t n).error = d.error := by
  unfold updateParsedData
  rcases t with _ | t <;> rfl

/-! ### Structural lemmas about the pipeline helpers -/

/-- The final record of the `ai_parse` catch, regardless of whether its
audit write succeeds. -/
theorem aiParseCatch_doc (o : Oracle) (d : DocRecord) (audits : List AuditEntry)
    (tr : List DocRecord) (c : List RemoteCall) (msg : String) (n : Nat) :
    (aiParseCatch o d audits tr c msg n).doc =
      updateStatus d .failed (some { message := msg, stage := some "ai_parse" }) := by
  unfold aiParseCatch
  by_cases h : o.audit n <;> simp [h]

/-- The `ai_parse` catch never changes the list of remote calls. -/
theorem aiParseCatch_calls (o : Oracle) (d : DocRecord) (audits : List AuditEntry)
    (tr : List DocRecord) (c : List RemoteCall) (msg : String) (n : Nat) :
    (aiParseCatch o d audits tr c msg n).calls = c := by
  unfold aiParseCatch
  by_cases h : o.audit n <;> simp [h]

/-- The `ai_parse` catch appends exactly one saved state to the trace. -/
theorem aiParseCatch_trace (o : Oracle) (d : DocRecord) (audits : List AuditEntry)
    (tr : List DocRecord) (c : List RemoteCall) (msg : String) (n : Nat) :
    (aiParseCatch o d audits tr c msg n).trace =
      tr ++ [updateStatus d .failed (some { message := msg, stage := some "ai_parse" })] := by
  unfold aiParseCatch
  by_cases h : o.audit n <;> simp [h]

/-- The `ai_parse` catch never reports success. -/
theorem aiParseCatch_success (o : Oracle) (d : DocRecord) (audits : List AuditEntry)
    (tr : List DocRecord) (c : List RemoteCall) (msg : String) (n : Nat) :
    (aiParseCatch o d audits tr c msg n).success = false := by
  unfold aiParseCatch
  by_cases h : o.audit n <;> simp [h]

/-- The remote-call count of `parseByType`: one extraction call for each
known type, none for the default branch. -/
theorem parseByType_snd (env : ChatEnv) (s : String) (t : DocumentType) :
    (parseByType env s t).2 = if t = .other then 0 else 1 := by
  cases t <;> rfl

/-- For a known type, `parseByType` returns the extraction call's outcome. -/
theorem parseByType_fst (env : ChatEnv) (s : String) (t : DocumentType) (h : t ≠ .other) :
    (parseByType env s t).1 = (env.outcome t).map some := by
  cases t <;> first | rfl | exact absurd rfl h

/-- The default branch of `parseByType`. -/
theorem parseByType_other_eq (env : ChatEnv) (s : String) :
    parseByType env s .other = (Except.ok none, 0) := rfl

/-- The extraction step makes one extraction call for a known type and
none for `"other"`, in addition to the calls already made. -/
theorem extractionStep_calls (o : Oracle) (d : DocRecord) (od : OcrResponse)
    (audits : List AuditEntry) (tr : List DocRecord) (c : List RemoteCall)
    (t : DocumentType) (tp n : Nat) :
    (extractionStep o d od audits tr c t tp n).calls =
      c ++ (if t = .other then [] else [RemoteCall.ext t]) := by
  unfold extractionStep
  split
  next msg k heq =>
    rw [aiParseCatch_calls]
    have ht : t ≠ DocumentType.other := by
      intro ht
      subst ht
      rw [parseByType_other_eq] at heq
      simp at heq
    have hk : k = 1 := by
      have h2 := congrArg Prod.snd heq
      rw [parseByType_snd, if_neg ht] at h2
      exact h2.symm
    subst hk
    simp [ht]
  next res k heq =>
    have hk : k = if t = DocumentType.other then 0 else 1 := by
      have h2 := congrArg Prod.snd heq
      rw [parseByType_snd] at h2
      exact h2.symm
    subst hk
    by_cases h2 : o.audit n <;>
      by_cases ht : t = DocumentType.other <;>
      simp [h2, ht, aiParseCatch_calls]

/-- `Except.map` keeps errors in place. -/
theorem except_map_error_iff {α β : Type} (f : α → β) (x : Except String α) (e : String) :
    x.map f = Except.error e ↔ x = Except.error e := by
  cases x <;> simp [Except.map]

/-- `Except.map` keeps successes in place. -/
theorem except_map_ok_iff {α β : Type} (f : α → β) (x : Except String α) (b : β) :
    x.map f = Except.ok b ↔ ∃ a, x = Except.ok a ∧ f a = b := by
  cases x <;> simp [Except.map, eq_comm]

/-- The record produced by the extraction step satisfies the guarded
`parsedData`-key invariant outright: it is either a `failed` record or the
result of `updateParsedData({ [t]: result }, t)`, whose stored entry
survives the schema cast exactly when `t` is schema-keyed. -/
theorem extractionStep_inv (o : Oracle) (d : DocRecord) (od : OcrResponse)
    (audits : List AuditEntry) (tr : List DocRecord) (c : List RemoteCall)
    (t : DocumentType) (tp n : Nat) :
    schemaParsedKeyInv (extractionStep o d od audits tr c t tp n).doc := by
  unfold extractionStep
  split
  next msg k heq =>
    intro h
    rw [aiParseCatch_doc, updateStatus_status] at h
    cases h
  next res k heq =>
    by_cases h2 : o.audit n
    · simp only [h2, if_true]
      intro _ hkey
      refine ⟨castParsedData [(t, res)], by simp, ?_⟩
      rw [updateParsedData_some_documentType] at hkey ⊢
      rw [castParsedData_singleton, if_pos hkey]
      simp [ParsedData.hasKey]
    · simp only [h2, Bool.false_eq_true, if_false]
      intro h
      rw [aiParseCatch_doc, updateStatus_status] at h
      cases h

/-- Terminal status of the extraction step when its audit write succeeds. -/
theorem extractionStep_status (o : Oracle) (d : DocRecord) (od : OcrResponse)
    (audits : List AuditEntry) (tr : List DocRecord) (c : List RemoteCall)
    (t : DocumentType) (tp n : Nat) (hn : o.audit n = true) :
    (extractionStep o d od audits tr c t tp n).doc.status = expectedExt o t := by
  unfold extractionStep
  split
  next msg k heq =>
    have ht : t ≠ DocumentType.other := by
      intro ht
      subst ht
      rw [parseByType_other_eq] at heq
      simp at heq
    have hfst := congrArg Prod.fst heq
    rw [parseByType_fst _ _ _ ht] at hfst
    rw [except_map_error_iff] at hfst
    have hfst2 : o.ext t = Except.error msg := hfst
    rw [aiParseCatch_doc, updateStatus_status, expectedExt, if_neg ht, hfst2]
  next res k heq =>
    simp only [hn, if_true, updateParsedData_status]
    by_cases ht : t = DocumentType.other
    · rw [expectedExt, if_pos ht]
    · have hfst := congrArg Prod.fst heq
      rw [parseByType_fst _ _ _ ht] at hfst
      rw [except_map_ok_iff] at hfst
      obtain ⟨a, ha, -⟩ := hfst
      have ha2 : o.ext t = Except.ok a := ha
      rw [expectedExt, if_neg ht, ha2]

/-- The `documentType` stored by the extraction step: the resolved type
when the extraction outcome is a success (even if the subsequent audit
write fails), the unchanged one when the extraction call throws. -/
theorem extractionStep_documentType (o : Oracle) (d : DocRecord) (od : OcrResponse)
    (audits : List AuditEntry) (tr : List DocRecord) (c : List RemoteCall)
    (t : DocumentType) (tp n : Nat) :
    (extractionStep o d od audits tr c t tp n).doc.documentType =
      match (parseByType { outcome := o.ext } od.mdResults t).1 with
      | Except.ok _ => t
      | Except.error _ => d.documentType := by
  unfold extractionStep
  split
  next msg k heq =>
    rw [congrArg Prod.fst heq]
    rw [aiParseCatch_doc, updateStatus_documentType]
  next res k heq =>
    rw [congrArg Prod.fst heq]
    by_cases h2 : o.audit n
    · simp [h2]
    · simp only [h2, Bool.false_eq_true, if_false]
      rw [aiParseCatch_doc, updateStatus_documentType, updateParsedData_some_documentType]

/-- Every state saved by the extraction step beyond the given trace is
terminal (`completed` or `failed`). -/
theorem extractionStep_trace_mem (o : Oracle) (d : DocRecord) (od : OcrResponse)
    (audits : List AuditEntry) (tr : List DocRecord) (c : List RemoteCall)
    (t : DocumentType) (tp n : Nat) :
    ∀ s ∈ (extractionStep o d od audits tr c t tp n).trace,
      s ∈ tr ∨ s.status = .failed ∨ s.status = .completed := by
  unfold extractionStep
  split
  next msg k heq =>
    intro s hs
    rw [aiParseCatch_trace] at hs
    rcases List.mem_append.mp hs with h | h
    · exact Or.inl h
    · rcases List.mem_singleton.mp h with rfl
      exact Or.inr (Or.inl (updateStatus_status _ _ _))
  next res k heq =>
    by_cases h2 : o.audit n
    · simp only [h2, if_true]
      intro s hs
      rcases List.mem_append.mp hs with h | h
      · exact Or.inl h
      · rcases List.mem_singleton.mp h with rfl
        exact Or.inr (Or.inr (updateParsedData_status _ _ _ _))
    · simp only [h2, Bool.false_eq_true, if_false]
      intro s hs
      rw [aiParseCatch_trace] at hs
      rcases List.mem_append.mp hs with h | h
      · rcases List.mem_append.mp h with h3 | h3
        · exact Or.inl h3
        · rcases List.mem_singleton.mp h3 with rfl
          exact Or.inr (Or.inr (updateParsedData_status _ _ _ _))
      · rcases List.mem_singleton.mp h with rfl
        exact Or.inr (Or.inl (updateStatus_status _ _ _))

/-- The record produced by step 2 + step 3 satisfies the guarded
`parsedData`-key invariant outright. -/
theorem typeResolutionStep_inv (o : Oracle) (d : DocRecord) (od : OcrResponse)
    (audits : List AuditEntry) (tr : List DocRecord) (tp : Nat) :
    schemaParsedKeyInv (typeResolutionStep o d od audits tr tp).doc := by
  unfold typeResolutionStep
  by_cases ht : d.documentType = DocumentType.other
  · simp only [ht, if_true]
    cases hd : o.detect
    · intro h
      rw [aiParseCatch_doc, updateStatus_status] at h
      cases h
    · exact extractionStep_inv _ _ _ _ _ _ _ _ _
  · simp only [ht, if_false]
    exact extractionStep_inv _ _ _ _ _ _ _ _ _

/-- Terminal status of step 2 + step 3 when the audit writes succeed. -/
theorem typeResolutionStep_status (o : Oracle) (d : DocRecord) (od : OcrResponse)
    (audits : List AuditEntry) (tr : List DocRecord) (tp : Nat) (h2 : o.audit 2 = true) :
    (typeResolutionStep o d od audits tr tp).doc.status = resolvedStatus o d.documentType := by
  unfold typeResolutionStep resolvedStatus
  by_cases ht : d.documentType = DocumentType.other
  · simp only [ht, if_true]
    cases hd : o.detect
    · rw [aiParseCatch_doc, updateStatus_status]
    · exact extractionStep_status _ _ _ _ _ _ _ _ _ h2
  · simp only [ht, if_false]
    exact extractionStep_status _ _ _ _ _ _ _ _ _ h2

/-- The remote calls of step 2 + step 3: classification exactly when the
type is `"other"`, then an extraction call for the resolved type when it
is known. -/
theorem typeResolutionStep_calls (o : Oracle) (d : DocRecord) (od : OcrResponse)
    (audits : List AuditEntry) (tr : List DocRecord) (tp : Nat) :
    (typeResolutionStep o d od audits tr tp).calls =
      if d.documentType = .other then
        match o.detect with
        | Except.error _ => [RemoteCall.ocr, RemoteCall.detect]
        | Except.ok t2 =>
            [RemoteCall.ocr, RemoteCall.detect] ++
              (if t2 = .other then [] else [RemoteCall.ext t2])
      else [RemoteCall.ocr] ++ [RemoteCall.ext d.documentType] := by
  unfold typeResolutionStep
  by_cases ht : d.documentType = DocumentType.other
  · simp only [ht, if_true]
    cases hd : o.detect
    · rw [aiParseCatch_calls]
    · rw [extractionStep_calls]
  · simp only [ht, if_false]
    rw [extractionStep_calls, if_neg ht]

/-- Every state saved during step 2 + step 3 beyond the given trace is
terminal. -/
theorem typeResolutionStep_trace_mem (o : Oracle) (d : DocRecord) (od : OcrResponse)
    (audits : List AuditEntry) (tr : List DocRecord) (tp : Nat) :
    ∀ s ∈ (typeResolutionStep o d od audits tr tp).trace,
      s ∈ tr ∨ s.status = .failed ∨ s.status = .completed := by
  unfold typeResolutionStep
  by_cases ht : d.documentType = DocumentType.other
  · simp only [ht, if_true]
    cases hd : o.detect
    · intro s hs
      rw [aiParseCatch_trace] at hs
      rcases List.mem_append.mp hs with h | h
      · exact Or.inl h
      · rcases List.mem_singleton.mp h with rfl
        exact Or.inr (Or.inl (updateStatus_status _ _ _))
    · exact extractionStep_trace_mem _ _ _ _ _ _ _ _ _
  · simp only [ht, if_false]
    exact extractionStep_trace_mem _ _ _ _ _ _ _ _ _

/-- The extraction step only ever appends to the trace it is given. -/
theorem extractionStep_trace_append (o : Oracle) (d : DocRecord) (od : OcrResponse)
    (audits : List AuditEntry) (tr : List DocRecord) (c : List RemoteCall)
    (t : DocumentType) (tp n : Nat) :
    ∃ rest, (extractionStep o d od audits tr c t tp n).trace = tr ++ rest := by
  unfold extractionStep
  split
  next msg k heq =>
    exact ⟨_, aiParseCatch_trace _ _ _ _ _ _ _⟩
  next res k heq =>
    by_cases h2 : o.audit n
    · simp only [h2, if_true]
      exact ⟨_, rfl⟩
    · simp only [h2, Bool.false_eq_true, if_false]
      rw [aiParseCatch_trace, List.append_assoc]
      exact ⟨_, rfl⟩

/-- Step 2 + step 3 only ever append to the trace they are given. -/
theorem typeResolutionStep_trace_append (o : Oracle) (d : DocRecord) (od : OcrResponse)
    (audits : List AuditEntry) (tr : List DocRecord) (tp : Nat) :
    ∃ rest, (typeResolutionStep o d od audits tr tp).trace = tr ++ rest := by
  unfold typeResolutionStep
  by_cases ht : d.documentType = DocumentType.other
  · simp only [ht, if_true]
    cases hd : o.detect
    · exact ⟨_, aiParseCatch_trace _ _ _ _ _ _ _⟩
    · exact extractionStep_trace_append _ _ _ _ _ _ _ _ _
  · simp only [ht, if_false]
    exact extractionStep_trace_append _ _ _ _ _ _ _ _ _

/-- Reduction of `processDocument` when the initial audit write rejects:
the outer catch returns before any document update. -/
theorem processDocument_audit0_rejects (o : Oracle) (d : DocRecord) (tOcr tParse : Nat)
    (h0 : o.audit 0 = false) :
    processDocument o d tOcr tParse =
      { doc := d, audits := [], trace := [d], calls := [], success := false,
        errMsg := some (o.auditMsg 0) } := by
  unfold processDocument
  rw [h0]
  simp

/-- Reduction of `processDocument` when the OCR call fails and the audit
writes succeed. -/
theorem processDocument_ocrError (o : Oracle) (d : DocRecord) (tOcr tParse : Nat)
    (msg : String) (hocr : o.ocr = Except.error msg)
    (h0 : o.audit 0 = true) (h1 : o.audit 1 = true) :
    processDocument o d tOcr tParse =
      { doc := updateStatus d .failed (some { message := msg, stage := some "ocr" }),
        audits := [reparseAudit d .started, reparseAudit d (.ocrFailed msg)],
        trace := [d, updateStatus d .failed (some { message := msg, stage := some "ocr" })],
        calls := [RemoteCall.ocr], success := false,
        errMsg := some ("OCR 失败: " ++ msg) } := by
  unfold processDocument
  rw [h0, hocr]
  simp [h1]

/-- Reduction of `processDocument` when the OCR call and the first two
audit writes succeed: the invocation continues with step 2 on the record
updated by `updateOcrResult`. -/
theorem processDocument_ocrOk (o : Oracle) (d : DocRecord) (tOcr tParse : Nat)
    (od : OcrResponse) (hocr : o.ocr = Except.ok od)
    (h0 : o.audit 0 = true) (h1 : o.audit 1 = true) :
    processDocument o d tOcr tParse =
      typeResolutionStep o (updateOcrResult d od.payload tOcr) od
        [reparseAudit d .started, reparseAudit d (.ocrCompleted od.numPages)]
        [d, updateOcrResult d od.payload tOcr] tParse := by
  unfold processDocument
  rw [h0, hocr]
  simp [h1]

/-- The final record when the OCR call fails, regardless of whether the
`ocr_failed` audit write succeeds. -/
theorem processDocument_ocrError_doc (o : Oracle) (d : DocRecord) (tOcr tParse : Nat)
    (msg : String) (hocr : o.ocr = Except.error msg) (h0 : o.audit 0 = true) :
    (processDocument o d tOcr tParse).doc =
      updateStatus d .failed (some { message := msg, stage := some "ocr" }) := by
  unfold processDocument
  rw [h0, hocr]
  by_cases h1 : o.audit 1 <;> simp [h1]

/-- Reduction of the final record when the OCR call succeeds but the
`ocr_completed` audit write rejects: the OCR catch marks the updated
record failed at stage `"ocr"` with the audit error's message. -/
theorem processDocument_audit1_rejects_doc (o : Oracle) (d : DocRecord) (tOcr tParse : Nat)
    (od : OcrResponse) (hocr : o.ocr = Except.ok od)
    (h0 : o.audit 0 = true) (h1 : o.audit 1 = false) :
    (processDocument o d tOcr tParse).doc =
      updateStatus (updateOcrResult d od.payload tOcr) .failed
        (some { message := o.auditMsg 1, stage := some "ocr" }) := by
  unfold processDocument
  rw [h0, hocr]
  by_cases h2 : o.audit 2 <;> simp [h1, h2]

/-! ### Claim theorems -/

/-- C9: for every OCR text input, `parseByType` invoked with document type
`"other"` — the only `DocumentType` value outside the five known cases
`invoice`, `certificate`, `resume`, `handwritten`, `financial_report`, so
the one reaching the switch's `default` branch — returns `null` without
making any remote extraction call. -/
theorem parseByType_other_returns_null_without_call (env : ChatEnv) (ocrText : String) :
    parseByType env ocrText .other = (Except.ok none, 0) := rfl

/-- `calculateConfidence` always equals the clamped length estimate: on an
empty item list the estimate is itself 0. -/
theorem calculateConfidence_eq (d : List (List LayoutDetail)) :
    calculateConfidence d = min 100 ((totalContentLength d.flatten : ℚ) / 10 * 2) := by
  unfold calculateConfidence
  by_cases h : d.flatten.length = 0
  · rw [if_pos h]
    rw [List.length_eq_zero.mp h]
    norm_num [totalContentLength]
  · rw [if_neg h]

/-- C10: for every layout-details input, `calculateConfidence` returns a
value between 0 and 100 inclusive, returns exactly 0 when there are no
layout items, and is monotonically non-decreasing in the total content
length of the items. -/
theorem calculateConfidence_bounds_and_monotone (d1 d2 : List (List LayoutDetail))
    (h : totalContentLength d1.flatten ≤ totalContentLength d2.flatten) :
    0 ≤ calculateConfidence d1 ∧ calculateConfidence d1 ≤ 100 ∧
    (d1.flatten = [] → calculateConfidence d1 = 0) ∧
    calculateConfidence d1 ≤ calculateConfidence d2 := by
  have e1 := calculateConfidence_eq d1
  have e2 := calculateConfidence_eq d2
  have hq : (totalContentLength d1.flatten : ℚ) ≤ (totalContentLength d2.flatten : ℚ) := by
    exact_mod_cast h
  refine ⟨?_, ?_, ?_, ?_⟩
  · rw [e1]
    exact le_min (by norm_num) (by positivity)
  · rw [e1]
    exact min_le_left _ _
  · intro hnil
    unfold calculateConfidence
    rw [hnil]
    simp
  · rw [e1, e2]
    exact min_le_min le_rfl (by linarith)

/-- C10 witness: the bounds and monotonicity at the empty input against a
single ten-character item. -/
theorem calculateConfidence_bounds_and_monotone_witness :
    totalContentLength (([] : List (List LayoutDetail)).flatten) ≤
      totalContentLength ([[sampleItem]].flatten) ∧
    (0 ≤ calculateConfidence [] ∧ calculateConfidence ([] : List (List LayoutDetail)) ≤ 100 ∧
     (([] : List (List LayoutDetail)).flatten = [] → calculateConfidence [] = 0) ∧
     calculateConfidence [] ≤ calculateConfidence [[sampleItem]]) :=
  ⟨by decide, calculateConfidence_bounds_and_monotone [] [[sampleItem]] (by decide)⟩

/-- C8: every upload request whose file has a MIME type outside the
allowed set or a size exceeding the configured maximum is rejected with a
400 response before the pipeline starts: no file is stored, no document
record is created, no audit entry is written (hence no processing is
kicked off, since processing starts from a created record's id). -/
theorem uploadPOST_rejects_bad_file (env : UploadEnv) (req : UploadReq)
    (newId savedUrl : String) (f : UploadFile) (hf : req.file = some f)
    (hbad : env.allowedFileTypes.contains f.mime = false ∨ env.maxFileSize < f.size) :
    uploadPOST env req newId savedUrl =
      { status := 400, savedFile := none, createdDoc := none, audits := [] } := by
  unfold uploadPOST
  rw [hf]
  rcases hbad with hb | hb
  · have hm : validateFileType env f.mime = false := hb
    simp [hm]
  · by_cases hm : validateFileType env f.mime = false
    · simp [hm]
    · have hs : validateFileSize env f.size = false := by
        simp only [validateFileSize, decide_eq_false_iff_not, Nat.not_le]
        exact hb
      simp [hm, hs]

/-- C8 witness: a GIF upload is rejected with 400 and no side effects. -/
theorem uploadPOST_rejects_bad_file_witness :
    badUploadReq.file = some badGifFile ∧
    (sampleEnv.allowedFileTypes.contains badGifFile.mime = false ∨
      sampleEnv.maxFileSize < badGifFile.size) ∧
    uploadPOST sampleEnv badUploadReq "doc9" "/uploads/x.gif" =
      { status := 400, savedFile := none, createdDoc := none, audits := [] } :=
  ⟨rfl, Or.inl (by decide),
    uploadPOST_rejects_bad_file sampleEnv badUploadReq "doc9" "/uploads/x.gif"
      badGifFile rfl (Or.inl (by decide))⟩

/-- C5: in every invocation whose OCR call succeeds, the OCR-store step
saves exactly `updateOcrResult` of the current record (the second state of
the trace), and `updateOcrResult` changes nothing but `ocrResult`,
`metadata.ocrProcessedAt` and `metadata.pageCount`: status, error, parsed
data, document type, file identity and the remaining metadata are
untouched, so a record in `processing` remains in `processing`. -/
theorem updateOcrResult_frame (o : Oracle) (d : DocRecord) (od : OcrResponse)
    (tOcr tParse : Nat) (hocr : o.ocr = Except.ok od)
    (h0 : o.audit 0 = true) (h1 : o.audit 1 = true) :
    ((processDocument o d tOcr tParse).trace.take 2 =
      [d, updateOcrResult d od.payload tOcr]) ∧
    (∀ (p : OcrPayload) (now : Nat),
      (updateOcrResult d p now).status = d.status ∧
      (updateOcrResult d p now).error = d.error ∧
      (updateOcrResult d p now).parsedData = d.parsedData ∧
      (updateOcrResult d p now).documentType = d.documentType ∧
      (updateOcrResult d p now).id = d.id ∧
      (updateOcrResult d p now).fileName = d.fileName ∧
      (updateOcrResult d p now).fileUrl = d.fileUrl ∧
      (updateOcrResult d p now).fileType = d.fileType ∧
      (updateOcrResult d p now).metadata.fileSize = d.metadata.fileSize ∧
      (updateOcrResult d p now).metadata.aiParsedAt = d.metadata.aiParsedAt ∧
      (updateOcrResult d p now).metadata.confidence = d.metadata.confidence ∧
      (d.status = .processing → (updateOcrResult d p now).status = .processing)) := by
  constructor
  · rw [processDocument_ocrOk o d tOcr tParse od hocr h0 h1]
    obtain ⟨rest, hrest⟩ :=
      typeResolutionStep_trace_append o (updateOcrResult d od.payload tOcr) od
        [reparseAudit d .started, reparseAudit d (.ocrCompleted od.numPages)]
        [d, updateOcrResult d od.payload tOcr] tParse
    rw [hrest]
    rfl
  · intro p now
    refine ⟨rfl, rfl, rfl, rfl, rfl, rfl, rfl, rfl, rfl, rfl, rfl, ?_⟩
    intro h
    rw [updateOcrResult_status, h]

/-- C5 witness: the trace clause of `updateOcrResult_frame` at the
all-successful oracle on a fresh invoice record. -/
theorem updateOcrResult_frame_witness :
    allOkOracle.ocr = Except.ok sampleOcrResponse ∧
    (processDocument allOkOracle freshInvoiceDoc 1 2).trace.take 2 =
      [freshInvoiceDoc, updateOcrResult freshInvoiceDoc sampleOcrResponse.payload 1] :=
  ⟨rfl, (updateOcrResult_frame allOkOracle freshInvoiceDoc sampleOcrResponse 1 2
    rfl rfl rfl).1⟩

/-- C3 counterexample: when the OCR collaborator fails with an empty
message, the stored error message is the fallback `"Unknown error"`,
not the collaborator's message. -/
theorem ocr_failure_empty_message_replaced :
    (processDocument ocrFailEmptyMsgOracle freshInvoiceDoc 1 2).doc.error =
      some { message := "Unknown error", code := none, stage := some "ocr" } ∧
    (processDocument ocrFailEmptyMsgOracle freshInvoiceDoc 1 2).doc.error ≠
      some { message := "", code := none, stage := some "ocr" } := by
  constructor
  · decide
  · decide

/-- C3 (amended): for every invocation of `process(documentId)` in which
the OCR call fails (and the audit-log writes succeed), the invocation
leaves `parsedData` and `ocrResult` unchanged (so unset if previously
unset), sets status to `"failed"` with `error.stage = "ocr"` and the
collaborator's error message — or `"Unknown error"` when that message is
empty — emits the `ocr_failed` audit entry, and performs no further
pipeline steps: no classification or extraction call is made. -/
theorem processDocument_ocr_failure (o : Oracle) (d : DocRecord) (tOcr tParse : Nat)
    (msg : String) (hocr : o.ocr = Except.error msg)
    (h0 : o.audit 0 = true) (h1 : o.audit 1 = true) :
    (processDocument o d tOcr tParse).doc.parsedData = d.parsedData ∧
    (processDocument o d tOcr tParse).doc.ocrResult = d.ocrResult ∧
    (processDocument o d tOcr tParse).doc.status = .failed ∧
    (processDocument o d tOcr tParse).doc.error =
      some { message := if msg = "" then "Unknown error" else msg,
             code := none, stage := some "ocr" } ∧
    (processDocument o d tOcr tParse).audits =
      [reparseAudit d .started, reparseAudit d (.ocrFailed msg)] ∧
    (processDocument o d tOcr tParse).calls = [RemoteCall.ocr] ∧
    (processDocument o d tOcr tParse).success = false := by
  rw [processDocument_ocrError o d tOcr tParse msg hocr h0 h1]
  exact ⟨updateStatus_parsedData _ _ _, updateStatus_ocrResult _ _ _,
    updateStatus_status _ _ _, updateStatus_failed_error _ _, rfl, rfl, rfl⟩

/-- C3 witness: the amended statement at an OCR failure with message
`"timeout"` on a fresh invoice record. -/
theorem processDocument_ocr_failure_witness :
    ocrFailOracle.ocr = Except.error "timeout" ∧
    ((processDocument ocrFailOracle freshInvoiceDoc 1 2).doc.parsedData =
        freshInvoiceDoc.parsedData ∧
     (processDocument ocrFailOracle freshInvoiceDoc 1 2).doc.ocrResult =
        freshInvoiceDoc.ocrResult ∧
     (processDocument ocrFailOracle freshInvoiceDoc 1 2).doc.status = .failed ∧
     (processDocument ocrFailOracle freshInvoiceDoc 1 2).doc.error =
        some { message := if "timeout" = "" then "Unknown error" else "timeout",
               code := none, stage := some "ocr" } ∧
     (processDocument ocrFailOracle freshInvoiceDoc 1 2).audits =
        [reparseAudit freshInvoiceDoc .started,
         reparseAudit freshInvoiceDoc (.ocrFailed "timeout")] ∧
     (processDocument ocrFailOracle freshInvoiceDoc 1 2).calls = [RemoteCall.ocr] ∧
     (processDocument ocrFailOracle freshInvoiceDoc 1 2).success = false) :=
  ⟨rfl, processDocument_ocr_failure ocrFailOracle freshInvoiceDoc 1 2 "timeout"
    rfl rfl rfl⟩

/-- C1 (code bug): `updateParsedData` sets `status = "completed"` without
clearing `error`, so reprocessing a failed record successfully (as the
reprocess endpoint does) yields a record with `status = "completed"` and a
non-null `error` — the stale failure — violating the intended invariant
that `error` is non-null iff `status = "failed"` (an invariant the
`updateStatus` method itself maintains by clearing `error` for every
non-failed status). -/
theorem updateParsedData_leaves_stale_error :
    (updateParsedData failedInvoiceDoc [(.invoice, some "new-json")] (some .invoice) 7).status =
      .completed ∧
    (updateParsedData failedInvoiceDoc [(.invoice, some "new-json")] (some .invoice) 7).error =
      some { message := "OCR timeout", code := none, stage := some "ocr" } ∧
    (processDocument allOkOracle failedInvoiceDoc 1 2).doc.status = .completed ∧
    (processDocument allOkOracle failedInvoiceDoc 1 2).doc.error =
      some { message := "OCR timeout", code := none, stage := some "ocr" } := by
  refine ⟨rfl, rfl, ?_, ?_⟩ <;> decide

/-- C2 counterexample: the pipeline itself violates the claimed invariant.
A financial-report document processed successfully ends `completed` with
`documentType = financial_report`, yet `parsedData` has no entry for that
key: the pipeline stores `{ financial_report: result }` but the schema
path is `financialReport`, so the strict-mode cast strips the entry.  A
user edit of `documentType` alone on a completed invoice record breaks
the invariant as well. -/
theorem pipeline_drops_parsedData_key :
    (processDocument allOkOracle financialReportDoc 1 2).doc.status = .completed ∧
    (processDocument allOkOracle financialReportDoc 1 2).doc.documentType =
      .financial_report ∧
    ((processDocument allOkOracle financialReportDoc 1 2).doc.parsedData.getD []).hasKey
      .financial_report = false ∧
    (putDocument completedInvoiceDoc
      { documentType := some .certificate, parsedData := none } 9).status = .completed ∧
    ((putDocument completedInvoiceDoc
      { documentType := some .certificate, parsedData := none } 9).parsedData.getD []).hasKey
      (putDocument completedInvoiceDoc
        { documentType := some .certificate, parsedData := none } 9).documentType = false := by
  refine ⟨?_, ?_, ?_, rfl, ?_⟩ <;> decide

/-- C2 (amended): for every document record mutated only by upload
creation and by the pipeline (`processDocument`), status `"completed"`
implies `parsedData` contains an entry keyed by the record's current
`documentType` whenever that type's enum string is a `ParsedDataSchema`
path (`invoice`, `certificate`, `resume`, `handwritten`); for
`financial_report` (schema path `financialReport`) and `other` (no schema
path) the entry is silently stripped on save, and a user edit through the
document-update endpoint can break the property for any type. -/
theorem schemaParsedKeyInv_preserved :
    (∀ (env : UploadEnv) (req : UploadReq) (newId savedUrl : String) (doc : DocRecord),
      (uploadPOST env req newId savedUrl).createdDoc = some doc → schemaParsedKeyInv doc) ∧
    (∀ (o : Oracle) (d : DocRecord) (tOcr tParse : Nat),
      schemaParsedKeyInv d → schemaParsedKeyInv (processDocument o d tOcr tParse).doc) := by
  constructor
  · intro env req newId savedUrl doc hdoc
    unfold uploadPOST at hdoc
    rcases hreq : req.file with _ | f
    · rw [hreq] at hdoc
      simp at hdoc
    · rw [hreq] at hdoc
      by_cases hm : validateFileType env f.mime = false
      · simp [hm] at hdoc
      · by_cases hs : validateFileSize env f.size = false
        · simp [hm, hs] at hdoc
        · rcases hp : parseDocumentType (jsOrString req.documentType "other") with _ | t
          · simp [hm, hs, hp] at hdoc
          · simp [hm, hs, hp] at hdoc
            intro hcompleted
            rw [← hdoc] at hcompleted
            cases hcompleted
  · intro o d tOcr tParse hinv
    by_cases h0 : o.audit 0 = true
    · cases hocr : o.ocr with
      | error msg =>
        rw [processDocument_ocrError_doc o d tOcr tParse msg hocr h0]
        intro h
        rw [updateStatus_status] at h
        cases h
      | ok od =>
        by_cases h1 : o.audit 1 = true
        · rw [processDocument_ocrOk o d tOcr tParse od hocr h0 h1]
          exact typeResolutionStep_inv _ _ _ _ _ _
        · have h1f : o.audit 1 = false := by simpa using h1
          rw [processDocument_audit1_rejects_doc o d tOcr tParse od hocr h0 h1f]
          intro h
          rw [updateStatus_status] at h
          cases h
    · have h0f : o.audit 0 = false := by simpa using h0
      rw [processDocument_audit0_rejects o d tOcr tParse h0f]
      exact hinv

/-- C2 witness: the preservation clause applied to the all-successful
pipeline run on a fresh record. -/
theorem schemaParsedKeyInv_preserved_witness :
    schemaParsedKeyInv freshInvoiceDoc ∧
    schemaParsedKeyInv (processDocument allOkOracle freshInvoiceDoc 1 2).doc :=
  ⟨fun h => absurd h (by decide),
   schemaParsedKeyInv_preserved.2 allOkOracle freshInvoiceDoc 1 2
     (fun h => absurd h (by decide))⟩

/-- C4 counterexample: reprocessing a failed record on an all-successful
oracle never passes through `"processing"` (the saved statuses are
`failed`, `failed`, `completed`), and a user edit that sets `parsedData`
also moves a failed record out of `"failed"` — so reprocessing is not the
only such transition. -/
theorem reprocess_skips_processing_state :
    ((processDocument allOkOracle failedInvoiceDoc 1 2).trace.map (fun s => s.status) =
      [DocStatus.failed, DocStatus.failed, DocStatus.completed]) ∧
    DocStatus.processing ∉
      ((processDocument allOkOracle failedInvoiceDoc 1 2).trace.map (fun s => s.status)) ∧
    (putDocument failedInvoiceDoc
      { documentType := none, parsedData := some [(.invoice, some "fix")] } 9).status =
      .completed := by
  refine ⟨?_, ?_, rfl⟩ <;> decide

/-- C4 (amended): re-invoking `process` on a failed record (with audit
writes succeeding) keeps every saved state out of `"processing"` — the
record stays `failed` until the terminal write — and ends in `"completed"`
or `"failed"` determined solely by the outcomes of the new collaborator
calls and the record's `documentType` (`expectedFinal`), with no
dependence on the prior failure; besides reprocessing, a user edit that
sets `parsedData` also transitions a failed record out of `"failed"`. -/
theorem reprocess_terminal_status (o : Oracle) (d : DocRecord) (tOcr tParse : Nat)
    (hf : d.status = .failed) (ha : ∀ n, o.audit n = true) :
    (∀ s ∈ (processDocument o d tOcr tParse).trace, s.status ≠ .processing) ∧
    (processDocument o d tOcr tParse).doc.status = expectedFinal o d.documentType ∧
    (expectedFinal o d.documentType = .completed ∨
      expectedFinal o d.documentType = .failed) ∧
    (∀ (pd : ParsedData) (now : Nat),
      (putDocument d { documentType := none, parsedData := some pd } now).status =
        .completed) := by
  refine ⟨?_, ?_, ?_, ?_⟩
  · cases hocr : o.ocr with
    | error msg =>
      rw [processDocument_ocrError o d tOcr tParse msg hocr (ha 0) (ha 1)]
      intro s hs
      simp only [List.mem_cons, List.mem_singleton, List.not_mem_nil, or_false] at hs
      rcases hs with rfl | rfl
      · rw [hf]
        exact fun h => by cases h
      · rw [updateStatus_status]
        exact fun h => by cases h
    | ok od =>
      rw [processDocument_ocrOk o d tOcr tParse od hocr (ha 0) (ha 1)]
      intro s hs
      rcases typeResolutionStep_trace_mem _ _ _ _ _ _ s hs with h | h | h
      · simp only [List.mem_cons, List.mem_singleton, List.not_mem_nil, or_false] at h
        rcases h with rfl | rfl
        · rw [hf]
          exact fun h2 => by cases h2
        · rw [updateOcrResult_status, hf]
          exact fun h2 => by cases h2
      · rw [h]
        exact fun h2 => by cases h2
      · rw [h]
        exact fun h2 => by cases h2
  · cases hocr : o.ocr with
    | error msg =>
      rw [processDocument_ocrError o d tOcr tParse msg hocr (ha 0) (ha 1),
        updateStatus_status]
      unfold expectedFinal
      rw [hocr]
    | ok od =>
      rw [processDocument_ocrOk o d tOcr tParse od hocr (ha 0) (ha 1),
        typeResolutionStep_status _ _ _ _ _ _ (ha 2), updateOcrResult_documentType]
      unfold expectedFinal
      rw [hocr]
  · unfold expectedFinal resolvedStatus expectedExt
    cases o.ocr with
    | error msg => exact Or.inr rfl
    | ok od =>
      by_cases ht : d.documentType = DocumentType.other
      · simp only [ht, if_true]
        cases o.detect with
        | error msg => exact Or.inr rfl
        | ok t2 =>
          by_cases ht2 : t2 = DocumentType.other
          · simp [ht2]
          · simp only [ht2, if_false]
            cases o.ext t2 with
            | error msg => exact Or.inr rfl
            | ok j => exact Or.inl rfl
      · simp only [ht, if_false]
        cases o.ext d.documentType with
        | error msg => exact Or.inr rfl
        | ok j => exact Or.inl rfl
  · intro pd now
    rfl

/-- C4 witness: the terminal-status clause at the all-successful oracle on
a failed invoice record. -/
theorem reprocess_terminal_status_witness :
    failedInvoiceDoc.status = .failed ∧
    (processDocument allOkOracle failedInvoiceDoc 1 2).doc.status =
      expectedFinal allOkOracle failedInvoiceDoc.documentType :=
  ⟨rfl, (reprocess_terminal_status allOkOracle failedInvoiceDoc 1 2 rfl
    (fun _ => rfl)).2.1⟩

/-- C6 counterexample: on a record of type `"other"` whose classification
returns `invoice` but whose extraction call then fails, the detected type
is used for the extraction call yet is not persisted: the final record
still has `documentType = "other"`. -/
theorem detected_type_not_persisted_on_parse_failure :
    ((processDocument extFailOracle otherTypeDoc 1 2).calls =
      [RemoteCall.ocr, RemoteCall.detect, RemoteCall.ext .invoice]) ∧
    (processDocument extFailOracle otherTypeDoc 1 2).doc.documentType = .other := by
  constructor
  · decide
  · decide

/-- C6 (amended): in every invocation that reaches the type-resolution
step (OCR and its audit writes succeeded), the classification collaborator
is called iff the record's `documentType` is `"other"`; every extraction
call uses exactly the resolved type (the classification result when
classification ran, the existing type otherwise); and the resolved type is
persisted onto the record whenever the extraction outcome is a success —
but not when extraction fails. -/
theorem classification_iff_other (o : Oracle) (d : DocRecord) (tOcr tParse : Nat)
    (od : OcrResponse) (hocr : o.ocr = Except.ok od)
    (h0 : o.audit 0 = true) (h1 : o.audit 1 = true) :
    ((RemoteCall.detect ∈ (processDocument o d tOcr tParse).calls) ↔
      d.documentType = .other) ∧
    (∀ t : DocumentType, RemoteCall.ext t ∈ (processDocument o d tOcr tParse).calls →
      (if d.documentType = .other then o.detect else Except.ok d.documentType) =
        Except.ok t) ∧
    (∀ t : DocumentType,
      (if d.documentType = .other then o.detect else Except.ok d.documentType) =
        Except.ok t →
      (t = .other ∨ ∃ j, o.ext t = Except.ok j) →
      (processDocument o d tOcr tParse).doc.documentType = t) := by
  rw [processDocument_ocrOk o d tOcr tParse od hocr h0 h1]
  refine ⟨?_, ?_, ?_⟩
  · rw [typeResolutionStep_calls]
    simp only [updateOcrResult_documentType]
    by_cases ht : d.documentType = DocumentType.other
    · simp only [ht, if_true]
      cases o.detect with
      | error msg => simp [ht]
      | ok t2 => simp [ht]
    · simp only [ht, if_false]
      simp [ht]
  · intro t hmem
    rw [typeResolutionStep_calls] at hmem
    simp only [updateOcrResult_documentType] at hmem
    by_cases ht : d.documentType = DocumentType.other
    · rw [if_pos ht] at hmem
      rw [if_pos ht]
      cases hdet : o.detect with
      | error msg =>
        rw [hdet] at hmem
        simp at hmem
      | ok t2 =>
        rw [hdet] at hmem
        by_cases ht2 : t2 = DocumentType.other
        · simp [ht2] at hmem
        · simp [ht2] at hmem
          rw [hmem]
    · rw [if_neg ht] at hmem
      rw [if_neg ht]
      simp at hmem
      rw [hmem]
  · intro t hres hok
    by_cases ht : d.documentType = DocumentType.other
    · rw [if_pos ht] at hres
      unfold typeResolutionStep
      simp only [updateOcrResult_documentType, ht, if_true, hres]
      rw [extractionStep_documentType]
      by_cases htt : t = DocumentType.other
      · subst htt
        rw [parseByType_other_eq]
      · obtain ⟨j, hj⟩ : ∃ j, o.ext t = Except.ok j := by
          rcases hok with h | h
          · exact absurd h htt
          · exact h
        rw [parseByType_fst _ _ _ htt]
        have hj2 : ({ outcome := o.ext } : ChatEnv).outcome t = Except.ok j := hj
        rw [hj2]
        simp [Except.map]
    · rw [if_neg ht] at hres
      have htd : d.documentType = t := by
        injection hres
      unfold typeResolutionStep
      simp only [updateOcrResult_documentType, ht, if_false]
      rw [extractionStep_documentType]
      simp only [updateOcrResult_documentType]
      cases h2 : (parseByType { outcome := o.ext } od.mdResults d.documentType).1 with
      | error msg => exact htd
      | ok res => exact htd

/-- C6 witness: the classification-iff clause at the all-successful oracle
on a record of type `"other"`. -/
theorem classification_iff_other_witness :
    allOkOracle.ocr = Except.ok sampleOcrResponse ∧
    ((RemoteCall.detect ∈ (processDocument allOkOracle otherTypeDoc 1 2).calls) ↔
      otherTypeDoc.documentType = .other) :=
  ⟨rfl, (classification_iff_other allOkOracle otherTypeDoc 1 2 sampleOcrResponse
    rfl rfl rfl).1⟩

/-- C7 counterexample: two oracles with identical collaborator outcomes
that differ only in whether the `ocr_completed` audit write succeeds lead
to different document outcomes: `completed` with parsed data versus
`failed` at stage `"ocr"` with none — so a `logAudit` failure does change
the pipeline's document-state outcome. -/
theorem audit_failure_changes_outcome :
    allOkOracle.ocr = audit1FailOracle.ocr ∧
    allOkOracle.detect = audit1FailOracle.detect ∧
    allOkOracle.ext = audit1FailOracle.ext ∧
    (processDocument allOkOracle freshInvoiceDoc 1 2).doc.status = .completed ∧
    (processDocument audit1FailOracle freshInvoiceDoc 1 2).doc.status = .failed ∧
    (processDocument audit1FailOracle freshInvoiceDoc 1 2).doc.parsedData = none ∧
    (processDocument audit1FailOracle freshInvoiceDoc 1 2).doc.error =
      some { message := "audit store down", code := none, stage := some "ocr" } := by
  refine ⟨rfl, rfl, rfl, ?_, ?_, ?_, ?_⟩ <;> decide

/-- C7 (amended): an audit-log failure is caught rather than thrown to the
caller of `process`, but it is not outcome-neutral: a rejected `started`
audit write aborts the invocation before any document update, and a
rejected `ocr_completed` audit write causes the enclosing OCR catch to
mark the record failed at stage `"ocr"` with the audit error's message,
leaving `parsedData` untouched. -/
theorem audit_failure_behavior (o : Oracle) (d : DocRecord) (tOcr tParse : Nat) :
    (o.audit 0 = false →
      (processDocument o d tOcr tParse).doc = d ∧
      (processDocument o d tOcr tParse).audits = [] ∧
      (processDocument o d tOcr tParse).success = false ∧
      (processDocument o d tOcr tParse).errMsg = some (o.auditMsg 0)) ∧
    (∀ od : OcrResponse, o.ocr = Except.ok od → o.audit 0 = true → o.audit 1 = false →
      (processDocument o d tOcr tParse).doc.status = .failed ∧
      (processDocument o d tOcr tParse).doc.error =
        some { message := if o.auditMsg 1 = "" then "Unknown error" else o.auditMsg 1,
               code := none, stage := some "ocr" } ∧
      (processDocument o d tOcr tParse).doc.parsedData = d.parsedData) := by
  constructor
  · intro h0
    rw [processDocument_audit0_rejects o d tOcr tParse h0]
    exact ⟨rfl, rfl, rfl, rfl⟩
  · intro od hocr h0 h1
    rw [processDocument_audit1_rejects_doc o d tOcr tParse od hocr h0 h1]
    refine ⟨updateStatus_status _ _ _, updateStatus_failed_error _ _, ?_⟩
    rw [updateStatus_parsedData, updateOcrResult_parsedData]

/-- C7 witness: the audit-1-rejection clause at the concrete oracle whose
second audit write fails. -/
theorem audit_failure_behavior_witness :
    audit1FailOracle.ocr = Except.ok sampleOcrResponse ∧
    audit1FailOracle.audit 0 = true ∧ audit1FailOracle.audit 1 = false ∧
    ((processDocument audit1FailOracle freshInvoiceDoc 1 2).doc.status = .failed ∧
     (processDocument audit1FailOracle freshInvoiceDoc 1 2).doc.error =
       some { message := if audit1FailOracle.auditMsg 1 = "" then "Unknown error"
                         else audit1FailOracle.auditMsg 1,
              code := none, stage := some "ocr" } ∧
     (processDocument audit1FailOracle freshInvoiceDoc 1 2).doc.parsedData =
       freshInvoiceDoc.parsedData) :=
  ⟨rfl, rfl, rfl,
    (audit_failure_behavior audit1FailOracle freshInvoiceDoc 1 2).2
      sampleOcrResponse rfl rfl rfl⟩

end CaiOrc
